import Mathlib

/-!
Shallow embedding of the rtcm2rnx decoder core (`src/rtcmlib/src/lib.rs`).

Machine floats (`f64`) are embedded as exact rationals (`ℚ`); all f64
constants of the source are exact decimals, hence exactly representable.
Rust `HashMap`/`BTreeMap` values are embedded as association lists with
replace-on-insert semantics; iteration order is irrelevant to the verified
properties.  A Rust `panic!` (or failing `unwrap`) is embedded as `none` of
an `Option`-returning function, so that a panic visibly discards all state.
-/

namespace Rtcm2Rnx

/-- Association-list lookup (first matching key wins). -/
def lookupKV {α β : Type} [DecidableEq α] : List (α × β) → α → Option β
  | [], _ => none
  | (k, v) :: rest, key => if k = key then some v else lookupKV rest key

/-- Association-list insert: replaces the value at an existing key in place,
otherwise appends the new binding at the end. -/
def insertKV {α β : Type} [DecidableEq α] : List (α × β) → α → β → List (α × β)
  | [], key, val => [(key, val)]
  | (k, v) :: rest, key, val =>
      if k = key then (key, val) :: rest else (k, v) :: insertKV rest key val

/-- Embedding of Rust `BTreeMap::append(&mut other)`: every binding of `other`
is moved into `self`, overwriting the value of any key already present. -/
def appendKV {α β : Type} [DecidableEq α] (old other : List (α × β)) : List (α × β) :=
  other.foldl (fun m kv => insertKV m kv.1 kv.2) old

/-- Set-style insert for `HashSet` embeddings. -/
def setInsert {α : Type} [DecidableEq α] (s : List α) (x : α) : List α :=
  if x ∈ s then s else x :: s

/-- GNSS constellations (from `rinex::prelude::Constellation`; only the
variants the decoder can construct or dispatch on). -/
inductive Constellation
  | GPS
  | Galileo
  | Glonass
  | BeiDou
deriving DecidableEq

/-- Satellite identity (`rinex::prelude::SV`). -/
structure SV where
  constellation : Constellation
  prn : Nat
deriving DecidableEq

/-- RINEX observable key (`rinex::prelude::Observable`).  The stored string
is the two-character signal code `<band><attribute>`; the kind letter
(C/L/D/S) of the full RINEX code is determined by the constructor. -/
inductive Observable
  | pseudoRange (code : String)
  | phase (code : String)
  | doppler (code : String)
  | ssi (code : String)
deriving DecidableEq

def Observable.isPhase : Observable → Bool
  | .phase _ => true
  | _ => false

/-- `Observable::code()`: the signal code without the kind letter. -/
def Observable.code : Observable → String
  | .pseudoRange c => c
  | .phase c => c
  | .doppler c => c
  | .ssi c => c

/-- RINEX loss-of-lock bitmask (`rinex::observation::LliFlags`): bit 0 is
`LOCK_LOSS`, bit 1 is `HALF_CYCLE_SLIP`; `OK_OR_UNKNOWN` is the zero mask. -/
structure LliFlags where
  lock_loss : Bool
  half_cycle_slip : Bool
deriving DecidableEq

def LliFlags.OK_OR_UNKNOWN : LliFlags := ⟨false, false⟩

/-- `rinex::observation::ObservationData`. -/
structure ObservationData where
  obs : ℚ
  lli : Option LliFlags
  snr : Option ℚ
deriving DecidableEq

abbrev SignalMap := List (Observable × ObservationData)

instance : DecidableEq SignalMap := inferInstance

abbrev SvMap := List (SV × SignalMap)

instance : DecidableEq SvMap := inferInstance

abbrev LockKey := SV × String

def SECONDS_PER_WEEK : Nat := 86400 * 7
def C_LIGHT : ℚ := 299792458
def RANGE_MS : ℚ := C_LIGHT * (1 / 1000)
def DEFAULT_LLI : Nat := 0

def FREQL1 : ℚ := 1575420000
def FREQL2 : ℚ := 1227600000
def FREQE5_B : ℚ := 1207140000
def FREQL5 : ℚ := 1176450000
def FREQL6 : ℚ := 1278750000
def FREQE5_AB : ℚ := 1191795000

/-- `LockStatus`: per-`(SV, code)` lock-time history. -/
structure LockStatus where
  use_rtklib_method : Bool
  previous_lli : List (LockKey × Nat)
  previous_epoch : List (LockKey × ℚ)
deriving DecidableEq

def LockStatus.new (use_rtklib_method : Bool) : LockStatus :=
  { use_rtklib_method := use_rtklib_method, previous_lli := [], previous_epoch := [] }

/-- `LockStatus::calculate_minimum_lock_time`: minimum lock time (ms) for a
DF407 indicator value.  The source `match` over `u64` ranges is written as an
`if` chain over the same ranges. -/
def calculate_minimum_lock_time (i : Nat) : Nat :=
  if i ≤ 63 then i
  else if i ≤ 95 then 2 * i - 64
  else if i ≤ 127 then 4 * i - 256
  else if i ≤ 159 then 8 * i - 768
  else if i ≤ 191 then 16 * i - 2048
  else if i ≤ 223 then 32 * i - 5120
  else if i ≤ 255 then 64 * i - 12288
  else if i ≤ 287 then 128 * i - 28672
  else if i ≤ 319 then 256 * i - 65536
  else if i ≤ 351 then 512 * i - 147456
  else if i ≤ 383 then 1024 * i - 327680
  else if i ≤ 415 then 2048 * i - 720896
  else if i ≤ 447 then 4096 * i - 1572864
  else if i ≤ 479 then 8192 * i - 3407872
  else if i ≤ 511 then 16384 * i - 7340032
  else if i ≤ 543 then 32768 * i - 15728640
  else if i ≤ 575 then 65536 * i - 33554432
  else if i ≤ 607 then 131072 * i - 71303168
  else if i ≤ 639 then 262144 * i - 150994944
  else if i ≤ 671 then 524288 * i - 318767104
  else if i ≤ 703 then 1048576 * i - 671088640
  else if i = 704 then 2097152 * i - 1409286144
  else 0

/-- `LockStatus::get_lli_coefficient`: supplementary coefficient for a DF407
indicator value. -/
def get_lli_coefficient (i : Nat) : Nat :=
  if i ≤ 63 then 1
  else if i ≤ 95 then 2
  else if i ≤ 127 then 4
  else if i ≤ 159 then 8
  else if i ≤ 191 then 16
  else if i ≤ 223 then 32
  else if i ≤ 255 then 64
  else if i ≤ 287 then 128
  else if i ≤ 319 then 256
  else if i ≤ 351 then 512
  else if i ≤ 383 then 1024
  else if i ≤ 415 then 2048
  else if i ≤ 447 then 4096
  else if i ≤ 479 then 8192
  else if i ≤ 511 then 16384
  else if i ≤ 543 then 32768
  else if i ≤ 575 then 65536
  else if i ≤ 607 then 131072
  else if i ≤ 639 then 262144
  else if i ≤ 671 then 524288
  else if i ≤ 703 then 1048576
  else if i = 704 then 2097152
  else 0

/-- Millisecond difference `(current − previous).to_unit(Millisecond) as u64`:
the `f64 → u64` cast truncates toward zero and clamps negatives to 0, which on
rationals is `Int.toNat ∘ floor`; `0` when no previous epoch is stored. -/
def lockDt (previous : Option ℚ) (current : ℚ) : Nat :=
  match previous with
  | none => 0
  | some p => (((current - p) * 1000 : ℚ).floor).toNat

/-- `LockStatus::update_lock_status`.  Returns the LLI flags (always `some`)
together with the updated tracker state. -/
def LockStatus.update_lock_status (self : LockStatus) (sv : SV) (code : String)
    (current_epoch : ℚ) (current_lli : Nat) (half_cycle_ambiguity : Nat) :
    Option LliFlags × LockStatus :=
  let lock_key : LockKey := (sv, code)
  let base : LliFlags := { lock_loss := false, half_cycle_slip := half_cycle_ambiguity > 0 }
  let previous_lli := (lookupKV self.previous_lli lock_key).getD DEFAULT_LLI
  let lli :=
    if self.use_rtklib_method then
      if (previous_lli = 0 ∧ current_lli = 0) ∨ current_lli < previous_lli then
        { base with lock_loss := true }
      else base
    else
      let dt := lockDt (lookupKV self.previous_epoch lock_key) current_epoch
      let p := calculate_minimum_lock_time previous_lli
      let n := calculate_minimum_lock_time current_lli
      let a := get_lli_coefficient previous_lli
      let b := get_lli_coefficient current_lli
      if p > n then { base with lock_loss := true }
      else if p = n ∧ dt ≥ a then { base with lock_loss := true }
      else if p = n ∧ dt < a then base
      else if p < n ∧ b > p ∧ dt ≥ n + b - p then { base with lock_loss := true }
      else if p < n ∧ b > p ∧ n < dt ∧ dt < n + b - p then { base with lock_loss := true }
      else if p < n ∧ b > p ∧ dt ≤ n then base
      else if p < n ∧ b ≤ p ∧ dt > n then { base with lock_loss := true }
      else if p < n ∧ b ≤ p ∧ dt ≤ n then base
      else base
  (some lli,
   { self with
      previous_lli := insertKV self.previous_lli lock_key current_lli,
      previous_epoch := insertKV self.previous_epoch lock_key current_epoch })

/-- `get_frequency_gps`; the source's `panic!` arm is `none`. -/
def get_frequency_gps (band : Nat) : Option ℚ :=
  if band = 1 then some FREQL1
  else if band = 2 then some FREQL2
  else if band = 5 then some FREQL5
  else none

/-- `get_frequency_galileo`; the source's `panic!` arm is `none`. -/
def get_frequency_galileo (band : Nat) : Option ℚ :=
  if band = 1 then some FREQL1
  else if band = 7 then some FREQE5_B
  else if band = 5 then some FREQL5
  else if band = 6 then some FREQL6
  else if band = 8 then some FREQE5_AB
  else none

/-- `get_frequency`; the source's `panic!` arm is `none`. -/
def get_frequency (constellation : Constellation) (band : Nat) : Option ℚ :=
  match constellation with
  | .GPS => get_frequency_gps band
  | .Galileo => get_frequency_galileo band
  | _ => none

/-- `rtcm_gps_time2epoch`.  Epochs are embedded as rational seconds on a
single absolute timescale whose origin is the GPST origin. -/
def rtcm_gps_time2epoch (tow_ms : ℚ) (week : Nat) : ℚ :=
  let tow_sec := tow_ms / 1000
  let tow_sec := if tow_sec < -(1000000000 : ℚ) ∨ (1000000000 : ℚ) < tow_sec then 0 else tow_sec
  ((week * SECONDS_PER_WEEK : Nat) : ℚ) + tow_sec

/-- Offset of the GST (Galileo) origin from the GPST origin in seconds, as
fixed by the external time library: the GST origin is exactly 1024 weeks
after the GPST origin. -/
def GST_MINUS_GPST_SECONDS : ℚ := 1024 * 604800

/-- `rtcm_galileo_time2epoch`, on the same absolute timescale. -/
def rtcm_galileo_time2epoch (tow_ms : ℚ) (week : Nat) : ℚ :=
  let tow_sec := tow_ms / 1000
  let tow_sec := if tow_sec < -(1000000000 : ℚ) ∨ (1000000000 : ℚ) < tow_sec then 0 else tow_sec
  GST_MINUS_GPST_SECONDS + ((week * SECONDS_PER_WEEK : Nat) : ℚ) + tow_sec

/-- `MsmData`: the flat per-signal row handed to `process_signals`. -/
structure MsmData where
  constellation : Constellation
  satellite_id : Nat
  band : Nat
  attr : Char
  rough_range : Option Nat
  rough_range_mod1ms : ℚ
  rough_phase_range_rate : Option Int
  fine_pseudo_range : Option ℚ
  fine_phase_range : Option ℚ
  fine_phase_range_rate : Option ℚ
  cnr : Option ℚ
  loss_of_lock_indicator : Nat
  half_cycle_ambiguity : Nat
deriving DecidableEq

/-- `format!("{}{}", band, attribute)`. -/
def codeStr (band : Nat) (attr : Char) : String :=
  toString band ++ toString attr

/-- `process_signals`: synthesizes up to four observables from one MSM row
and inserts them into the per-SV observable map; `none` embeds the panic of
`get_frequency` on an unsupported (constellation, band). -/
def process_signals (observations : SvMap) (signal : MsmData) (lock_status : LockStatus)
    (current_epoch : ℚ) : Option (SvMap × LockStatus) :=
  let code_str := codeStr signal.band signal.attr
  match get_frequency signal.constellation signal.band with
  | none => none
  | some frequency =>
    let wavelength := frequency / C_LIGHT
    let key : SV := ⟨signal.constellation, signal.satellite_id⟩
    let observation_data : SignalMap := (lookupKV observations key).getD []
    let range : Option ℚ :=
      match signal.rough_range with
      | some r => some ((r : ℚ) * RANGE_MS + signal.rough_range_mod1ms * RANGE_MS)
      | none => none
    let updated := lock_status.update_lock_status key code_str current_epoch
      signal.loss_of_lock_indicator signal.half_cycle_ambiguity
    let lli := updated.1
    let rough_phase_range_rate : Option ℚ :=
      match signal.rough_phase_range_rate with
      | some r => some (r : ℚ)
      | none => none
    let fine_phase_range_rate := signal.fine_phase_range_rate
    let fine_pseudo_range : Option ℚ :=
      match signal.fine_pseudo_range with
      | some f => some (f * RANGE_MS)
      | none => none
    let fine_phase_range : Option ℚ :=
      match signal.fine_phase_range with
      | some f => some (f * RANGE_MS)
      | none => none
    let od1 :=
      match range, fine_pseudo_range with
      | some r, some fp =>
          insertKV observation_data (Observable.pseudoRange code_str)
            { obs := r + fp, lli := none, snr := none }
      | _, _ => observation_data
    let od2 :=
      match range, fine_phase_range with
      | some r, some fp =>
          insertKV od1 (Observable.phase code_str)
            { obs := (r + fp) * wavelength, lli := lli, snr := none }
      | _, _ => od1
    let od3 :=
      match rough_phase_range_rate, fine_phase_range_rate with
      | some rr, some fr =>
          insertKV od2 (Observable.doppler code_str)
            { obs := (-(rr + fr)) * wavelength, lli := none, snr := none }
      | _, _ => od2
    let od4 :=
      match signal.cnr with
      | some c => insertKV od3 (Observable.ssi code_str) { obs := c, lli := none, snr := none }
      | none => od3
    some (insertKV observations key od4, updated.2)

/-- `rtcm_rs::Msm46Sat` (the fields the decoder reads). -/
structure Msm46Sat where
  satellite_id : Nat
  gnss_satellite_rough_range_integer_ms : Option Nat
  gnss_satellite_rough_range_mod1ms_ms : ℚ
deriving DecidableEq

/-- `rtcm_rs::Msm57Sat` (the fields the decoder reads). -/
structure Msm57Sat where
  satellite_id : Nat
  gnss_satellite_rough_range_integer_ms : Option Nat
  gnss_satellite_rough_range_mod1ms_ms : ℚ
  gnss_satellite_rough_phaserange_rates_m_s : Option Int
deriving DecidableEq

/-- MSM4 signal row (the fields the decoder reads; `signal_id.band()` and
`signal_id.attribute()` are flattened into `band` and `attr`). -/
structure Msm46Sig where
  satellite_id : Nat
  band : Nat
  attr : Char
  gnss_signal_cnr_dbhz : Option Nat
  gnss_phaserange_lock_time_ind : Nat
  half_cycle_ambiguity_ind : Nat
  gnss_signal_fine_pseudorange_ms : Option ℚ
  gnss_signal_fine_phaserange_ms : Option ℚ
deriving DecidableEq

/-- MSM7 signal row (the fields the decoder reads). -/
structure Msm57Sig where
  satellite_id : Nat
  band : Nat
  attr : Char
  gnss_phaserange_lock_time_ext_ind : Nat
  half_cycle_ambiguity_ind : Nat
  gnss_signal_fine_pseudorange_ext_ms : Option ℚ
  gnss_signal_fine_phaserange_ext_ms : Option ℚ
  gnss_signal_fine_phaserange_rate_m_s : Option ℚ
  gnss_signal_cnr_ext_dbhz : Option ℚ
deriving DecidableEq

/-- The transient `satellite_id → satellite` HashMap each `process_msm*`
builds by inserting the satellite rows in order (a later duplicate id
overrides an earlier one). -/
def buildSatMap {σ : Type} (satId : σ → Nat) (sats : List σ) : List (Nat × σ) :=
  sats.foldl (fun m s => insertKV m (satId s) s) []

/-- The shared signal loop of the four `process_msm*` functions: for each
signal row, look its satellite up (a failed lookup is the source's
`unwrap()` panic), build the `MsmData` row and run `process_signals`. -/
def msmRows {σ τ : Type} (satMap : List (Nat × σ)) (sigId : τ → Nat)
    (build : τ → σ → MsmData) (current_epoch : ℚ) :
    List τ → SvMap → LockStatus → Option (SvMap × LockStatus)
  | [], observations, lock_status => some (observations, lock_status)
  | sig :: rest, observations, lock_status =>
    match lookupKV satMap (sigId sig) with
    | none => none
    | some sat =>
      match process_signals observations (build sig sat) lock_status current_epoch with
      | none => none
      | some (observations', lock_status') =>
          msmRows satMap sigId build current_epoch rest observations' lock_status'

/-- The `MsmData` row built by `process_msm1074` (GPS MSM4). -/
def build1074 (sig : Msm46Sig) (sat : Msm46Sat) : MsmData :=
  { constellation := .GPS
    satellite_id := sig.satellite_id
    band := sig.band
    attr := sig.attr
    rough_range := sat.gnss_satellite_rough_range_integer_ms
    rough_range_mod1ms := sat.gnss_satellite_rough_range_mod1ms_ms
    rough_phase_range_rate := none
    fine_pseudo_range := sig.gnss_signal_fine_pseudorange_ms
    fine_phase_range := sig.gnss_signal_fine_phaserange_ms
    fine_phase_range_rate := none
    cnr := sig.gnss_signal_cnr_dbhz.map (fun c => (c : ℚ))
    loss_of_lock_indicator := sig.gnss_phaserange_lock_time_ind
    half_cycle_ambiguity := sig.half_cycle_ambiguity_ind }

/-- The `MsmData` row built by `process_msm1077` (GPS MSM7). -/
def build1077 (sig : Msm57Sig) (sat : Msm57Sat) : MsmData :=
  { constellation := .GPS
    satellite_id := sig.satellite_id
    band := sig.band
    attr := sig.attr
    rough_range := sat.gnss_satellite_rough_range_integer_ms
    rough_range_mod1ms := sat.gnss_satellite_rough_range_mod1ms_ms
    rough_phase_range_rate := sat.gnss_satellite_rough_phaserange_rates_m_s
    fine_pseudo_range := sig.gnss_signal_fine_pseudorange_ext_ms
    fine_phase_range := sig.gnss_signal_fine_phaserange_ext_ms
    fine_phase_range_rate := sig.gnss_signal_fine_phaserange_rate_m_s
    cnr := sig.gnss_signal_cnr_ext_dbhz
    loss_of_lock_indicator := sig.gnss_phaserange_lock_time_ext_ind
    half_cycle_ambiguity := sig.half_cycle_ambiguity_ind }

/-- The `MsmData` row built by `process_msm1094` (Galileo MSM4). -/
def build1094 (sig : Msm46Sig) (sat : Msm46Sat) : MsmData :=
  { build1074 sig sat with constellation := .Galileo }

/-- The `MsmData` row built by `process_msm1097` (Galileo MSM7). -/
def build1097 (sig : Msm57Sig) (sat : Msm57Sat) : MsmData :=
  { build1077 sig sat with constellation := .Galileo }

/-- `process_msm1074`. -/
def process_msm1074 (satellite_data : List Msm46Sat) (signal_data : List Msm46Sig)
    (lock_status : LockStatus) (current_epoch : ℚ) : Option (SvMap × LockStatus) :=
  msmRows (buildSatMap Msm46Sat.satellite_id satellite_data) Msm46Sig.satellite_id
    build1074 current_epoch signal_data [] lock_status

/-- `process_msm1077`. -/
def process_msm1077 (satellite_data : List Msm57Sat) (signal_data : List Msm57Sig)
    (lock_status : LockStatus) (current_epoch : ℚ) : Option (SvMap × LockStatus) :=
  msmRows (buildSatMap Msm57Sat.satellite_id satellite_data) Msm57Sig.satellite_id
    build1077 current_epoch signal_data [] lock_status

/-- `process_msm1094`. -/
def process_msm1094 (satellite_data : List Msm46Sat) (signal_data : List Msm46Sig)
    (lock_status : LockStatus) (current_epoch : ℚ) : Option (SvMap × LockStatus) :=
  msmRows (buildSatMap Msm46Sat.satellite_id satellite_data) Msm46Sig.satellite_id
    build1094 current_epoch signal_data [] lock_status

/-- `process_msm1097`. -/
def process_msm1097 (satellite_data : List Msm57Sat) (signal_data : List Msm57Sig)
    (lock_status : LockStatus) (current_epoch : ℚ) : Option (SvMap × LockStatus) :=
  msmRows (buildSatMap Msm57Sat.satellite_id satellite_data) Msm57Sig.satellite_id
    build1097 current_epoch signal_data [] lock_status

/-- `rinex::prelude::EpochFlag` (only `Ok` is produced by the decoder). -/
inductive EpochFlag
  | Ok
  | PowerFailure
deriving DecidableEq

abbrev EpochKey := ℚ × EpochFlag
abbrev EpochGroup := Option ℚ × SvMap

instance : DecidableEq EpochGroup := inferInstance

abbrev ObsTable := List (EpochKey × EpochGroup)

instance : DecidableEq ObsTable := inferInstance

/-- `extract_observed_signals`: collect the (constellation, code) pairs of
every observable in a message's observation map. -/
def extract_observed_signals (obs : SvMap) (s : List (Constellation × String)) :
    List (Constellation × String) :=
  obs.foldl (fun acc svEntry =>
    svEntry.2.foldl (fun acc2 obEntry =>
      setInsert acc2 (svEntry.1.constellation, obEntry.1.code)) acc) s

/-- The dispatched RTCM message variants of `convert_file`'s match. -/
inductive Message
  | msg1019 (gps_week_number : Nat)
  | msg1046 (gal_week_number : Nat)
  | msg1074 (gps_epoch_time_ms : Nat) (satellite_data : List Msm46Sat)
      (signal_data : List Msm46Sig)
  | msg1077 (gps_epoch_time_ms : Nat) (satellite_data : List Msm57Sat)
      (signal_data : List Msm57Sig)
  | msg1094 (gal_epoch_time_ms : Nat) (satellite_data : List Msm46Sat)
      (signal_data : List Msm46Sig)
  | msg1097 (gal_epoch_time_ms : Nat) (satellite_data : List Msm57Sat)
      (signal_data : List Msm57Sig)
  | otherMessage
deriving DecidableEq

/-- The mutable state of `convert_file`'s dispatch loop. -/
structure ConvertState where
  gps_week : Option Nat
  galileo_week : Option Nat
  first_epoch : Option ℚ
  last_epoch : Option ℚ
  lock_status : LockStatus
  observed_signals : List (Constellation × String)
  rinex_data : ObsTable
deriving DecidableEq

/-- Merging a message's observations into the epoch table: an existing group
is extended with `BTreeMap::append` (keeping its clock offset), a missing
group is freshly inserted with clock offset 0. -/
def mergeEpoch (table : ObsTable) (key : EpochKey) (observations : SvMap) : ObsTable :=
  match lookupKV table key with
  | some group => insertKV table key (group.1, appendKV group.2 observations)
  | none => insertKV table key (some 0, observations)

/-- The shared tail of the four MSM dispatch arms: update the epoch summary,
thread the lock tracker, record observed signals and merge the observations;
`none` propagates a panic. -/
def stepMsm (st : ConvertState) (msm_epoch : ℚ)
    (result : Option (SvMap × LockStatus)) : Option ConvertState :=
  match result with
  | none => none
  | some (observations, lock_status') =>
    some { st with
      first_epoch := some (match st.first_epoch with
        | none => msm_epoch
        | some f => if f > msm_epoch then msm_epoch else f)
      last_epoch := some (match st.last_epoch with
        | none => msm_epoch
        | some l => if l < msm_epoch then msm_epoch else l)
      lock_status := lock_status'
      observed_signals := extract_observed_signals observations st.observed_signals
      rinex_data := mergeEpoch st.rinex_data (msm_epoch, EpochFlag.Ok) observations }

/-- One iteration of `convert_file`'s dispatch loop. -/
def step (st : ConvertState) (m : Message) : Option ConvertState :=
  match m with
  | .msg1019 w => some { st with gps_week := some (w + 1024 + 1024) }
  | .msg1046 w => some { st with galileo_week := some w }
  | .msg1074 t sats sigs =>
    match st.gps_week with
    | none => some st
    | some week =>
      let msm_epoch := rtcm_gps_time2epoch (t : ℚ) week
      stepMsm st msm_epoch (process_msm1074 sats sigs st.lock_status msm_epoch)
  | .msg1077 t sats sigs =>
    match st.gps_week with
    | none => some st
    | some week =>
      let msm_epoch := rtcm_gps_time2epoch (t : ℚ) week
      stepMsm st msm_epoch (process_msm1077 sats sigs st.lock_status msm_epoch)
  | .msg1094 t sats sigs =>
    match st.galileo_week with
    | none => some st
    | some week =>
      let msm_epoch := rtcm_galileo_time2epoch (t : ℚ) week
      stepMsm st msm_epoch (process_msm1094 sats sigs st.lock_status msm_epoch)
  | .msg1097 t sats sigs =>
    match st.galileo_week with
    | none => some st
    | some week =>
      let msm_epoch := rtcm_galileo_time2epoch (t : ℚ) week
      stepMsm st msm_epoch (process_msm1097 sats sigs st.lock_status msm_epoch)
  | .otherMessage => some st

/-- The initial loop state of `convert_file`.  Note: the source initializes
both week fields to hard-coded `Some` values (a debug leftover annotated with
a specific capture file), not to `None`. -/
def initState (use_rtklib_lli : Bool) : ConvertState :=
  { gps_week := some 2334
    galileo_week := some 1310
    first_epoch := none
    last_epoch := none
    lock_status := LockStatus.new use_rtklib_lli
    observed_signals := []
    rinex_data := [] }

def runMessages : ConvertState → List Message → Option ConvertState
  | st, [] => some st
  | st, m :: rest =>
    match step st m with
    | none => none
    | some st' => runMessages st' rest

/-- The decoder core of `convert_file`: run the dispatch loop over the framed
message sequence from the initial state. -/
def convert_core (use_rtklib_lli : Bool) (msgs : List Message) : Option ConvertState :=
  runMessages (initState use_rtklib_lli) msgs

/-- Observation lookup helper: the observation stored in the final table at
an epoch, satellite and observable key. -/
def tableLookup (st : Option ConvertState) (e : ℚ) (sv : SV) (ob : Observable) :
    Option ObservationData :=
  match st with
  | none => none
  | some s =>
    match lookupKV s.rinex_data (e, EpochFlag.Ok) with
    | none => none
    | some g =>
      match lookupKV g.2 sv with
      | none => none
      | some sm => lookupKV sm ob

/-! ### Specification-side definitions (written from the spec's words, for
refinement comparison against the source embedding above) -/

/-- Modelled from the spec: the RTCM 10403.4 §3.5.12.3.2 minimum lock time in
closed form — identity on band 0 (`0..63`), then bands of width 32 whose slope
doubles per band (`2, 4, …, 2^21` up to the single point 704), 0 beyond. -/
def spec_min_lock_time (i : Nat) : Nat :=
  if i ≤ 63 then i
  else if i ≤ 704 then 2 ^ (i / 32 - 1) * i - (i / 32 - 1) * 2 ^ (i / 32 - 1 + 5)
  else 0

/-- Modelled from the spec: the supplementary coefficient, constant per band
and equal to the band's slope (`1, 2, 4, …, 2^21`; 0 if reserved). -/
def spec_lli_coefficient (i : Nat) : Nat :=
  if i ≤ 63 then 1
  else if i ≤ 704 then 2 ^ (i / 32 - 1)
  else 0

/-! ### Helper lemmas -/

def lockTablesAgree (i : Nat) : Prop :=
  calculate_minimum_lock_time i = spec_min_lock_time i ∧
    get_lli_coefficient i = spec_lli_coefficient i

instance (i : Nat) : Decidable (lockTablesAgree i) := by
  unfold lockTablesAgree; infer_instance

theorem lock_tables_chunk0 : ∀ j < 128, lockTablesAgree j := by decide

theorem lock_tables_chunk1 : ∀ j < 128, lockTablesAgree (128 + j) := by decide

theorem lock_tables_chunk2 : ∀ j < 128, lockTablesAgree (256 + j) := by decide

theorem lock_tables_chunk3 : ∀ j < 128, lockTablesAgree (384 + j) := by decide

theorem lock_tables_chunk4 : ∀ j < 128, lockTablesAgree (512 + j) := by decide

theorem lock_tables_chunk5 : ∀ j < 128, lockTablesAgree (640 + j) := by decide

theorem lock_time_table_eq_bounded :
    ∀ i < 705, calculate_minimum_lock_time i = spec_min_lock_time i ∧
      get_lli_coefficient i = spec_lli_coefficient i := by
  intro i hi
  have h0 := lock_tables_chunk0
  have h1 := lock_tables_chunk1
  have h2 := lock_tables_chunk2
  have h3 := lock_tables_chunk3
  have h4 := lock_tables_chunk4
  have h5 := lock_tables_chunk5
  unfold lockTablesAgree at h0 h1 h2 h3 h4 h5
  rcases Nat.lt_or_ge i 128 with h | h
  · exact h0 i h
  rcases Nat.lt_or_ge i 256 with h' | h'
  · have := h1 (i - 128) (by omega); rwa [Nat.add_sub_cancel' h] at this
  rcases Nat.lt_or_ge i 384 with h'' | h''
  · have := h2 (i - 256) (by omega); rwa [Nat.add_sub_cancel' h'] at this
  rcases Nat.lt_or_ge i 512 with h3' | h3'
  · have := h3 (i - 384) (by omega); rwa [Nat.add_sub_cancel' h''] at this
  rcases Nat.lt_or_ge i 640 with h4' | h4'
  · have := h4 (i - 512) (by omega); rwa [Nat.add_sub_cancel' h3'] at this
  · have := h5 (i - 640) (by omega); rwa [Nat.add_sub_cancel' h4'] at this

theorem calculate_minimum_lock_time_of_gt704 (i : Nat) (h : 704 < i) :
    calculate_minimum_lock_time i = 0 := by
  unfold calculate_minimum_lock_time
  repeat rw [if_neg (by omega)]

theorem get_lli_coefficient_of_gt704 (i : Nat) (h : 704 < i) :
    get_lli_coefficient i = 0 := by
  unfold get_lli_coefficient
  repeat rw [if_neg (by omega)]

theorem spec_min_lock_time_of_gt704 (i : Nat) (h : 704 < i) :
    spec_min_lock_time i = 0 := by
  unfold spec_min_lock_time
  rw [if_neg (by omega), if_neg (by omega)]

theorem spec_lli_coefficient_of_gt704 (i : Nat) (h : 704 < i) :
    spec_lli_coefficient i = 0 := by
  unfold spec_lli_coefficient
  rw [if_neg (by omega), if_neg (by omega)]

/-! ### Claim theorems -/

/-- Claim C3: for every indicator value, `calculate_minimum_lock_time` equals
the piecewise-linear minimum lock time of the RTCM 10403.4 §3.5.12.3.2 table
(slope doubling every 32 indicators, `t(704) = 67108864`, 0 beyond 704), and
`get_lli_coefficient` equals the slope of the band containing the indicator. -/
theorem c3_lock_time_tables (i : Nat) :
    calculate_minimum_lock_time i = spec_min_lock_time i ∧
    get_lli_coefficient i = spec_lli_coefficient i := by
  rcases Nat.lt_or_ge i 705 with h | h
  · exact lock_time_table_eq_bounded i h
  · rw [calculate_minimum_lock_time_of_gt704 i (by omega),
      get_lli_coefficient_of_gt704 i (by omega),
      spec_min_lock_time_of_gt704 i (by omega),
      spec_lli_coefficient_of_gt704 i (by omega)]
    exact ⟨rfl, rfl⟩

/-- Modelled from the spec: the disjunction of the LOCK_LOSS rows of the §4.5
decision table, over `p = t(prev)`, `n = t(cur)`, `a = k(prev)`, `b = k(cur)`
and the millisecond gap `dt`. -/
def standard_lock_loss_spec (p n a b dt : Nat) : Prop :=
  p > n ∨ (p = n ∧ dt ≥ a) ∨ (p < n ∧ b > p ∧ dt ≥ n + b - p) ∨
    (p < n ∧ b > p ∧ n < dt ∧ dt < n + b - p) ∨ (p < n ∧ b ≤ p ∧ dt > n)

instance (p n a b dt : Nat) : Decidable (standard_lock_loss_spec p n a b dt) := by
  unfold standard_lock_loss_spec; infer_instance

theorem lock_loss_chain_eq (p n a b dt : Nat) (hc : Bool) :
    (if p > n then LliFlags.mk true hc
     else if p = n ∧ dt ≥ a then LliFlags.mk true hc
     else if p = n ∧ dt < a then LliFlags.mk false hc
     else if p < n ∧ b > p ∧ dt ≥ n + b - p then LliFlags.mk true hc
     else if p < n ∧ b > p ∧ n < dt ∧ dt < n + b - p then LliFlags.mk true hc
     else if p < n ∧ b > p ∧ dt ≤ n then LliFlags.mk false hc
     else if p < n ∧ b ≤ p ∧ dt > n then LliFlags.mk true hc
     else if p < n ∧ b ≤ p ∧ dt ≤ n then LliFlags.mk false hc
     else LliFlags.mk false hc) =
      (if standard_lock_loss_spec p n a b dt then LliFlags.mk true hc
       else LliFlags.mk false hc) := by
  unfold standard_lock_loss_spec
  split_ifs <;> first | rfl | omega

/-- Claim C2: in Standard mode, `update_lock_status` sets the LOCK_LOSS bit
exactly on the LOCK_LOSS rows of the spec's decision table (over `p`, `n`,
`a`, `b` and the stored-epoch millisecond gap `dt`), contributes
`OK_OR_UNKNOWN` otherwise, and sets HALF_CYCLE_SLIP in the base mask iff the
half-cycle-ambiguity flag is positive. -/
theorem c2_standard_mode_decision (ls : LockStatus) (sv : SV) (code : String)
    (current_epoch : ℚ) (current_lli : Nat) (half_cycle_ambiguity : Nat)
    (hmode : ls.use_rtklib_method = false) :
    (ls.update_lock_status sv code current_epoch current_lli half_cycle_ambiguity).1 =
      some { lock_loss := decide (standard_lock_loss_spec
                 (calculate_minimum_lock_time
                   ((lookupKV ls.previous_lli (sv, code)).getD DEFAULT_LLI))
                 (calculate_minimum_lock_time current_lli)
                 (get_lli_coefficient
                   ((lookupKV ls.previous_lli (sv, code)).getD DEFAULT_LLI))
                 (get_lli_coefficient current_lli)
                 (lockDt (lookupKV ls.previous_epoch (sv, code)) current_epoch)),
             half_cycle_slip := decide (half_cycle_ambiguity > 0) } := by
  unfold LockStatus.update_lock_status
  rw [hmode]
  simp only [Bool.false_eq_true, if_false]
  rw [lock_loss_chain_eq]
  by_cases hS : standard_lock_loss_spec
      (calculate_minimum_lock_time ((lookupKV ls.previous_lli (sv, code)).getD DEFAULT_LLI))
      (calculate_minimum_lock_time current_lli)
      (get_lli_coefficient ((lookupKV ls.previous_lli (sv, code)).getD DEFAULT_LLI))
      (get_lli_coefficient current_lli)
      (lockDt (lookupKV ls.previous_epoch (sv, code)) current_epoch)
  · simp only [if_pos hS, decide_eq_true hS]
  · simp only [if_neg hS, decide_eq_false hS]

/-- Witness for C2: a concrete Standard-mode call.  With no history,
`p = 0`, `n = t(100) = 144`, `a = 1`, `b = k(100) = 4`, `dt = 0`: no
LOCK_LOSS row matches, and a positive half-cycle flag sets HALF_CYCLE_SLIP. -/
theorem c2_standard_mode_decision_witness :
    ((LockStatus.new false).update_lock_status ⟨.GPS, 5⟩ "1C" 0 100 1).1 =
      some { lock_loss := decide (standard_lock_loss_spec
                 (calculate_minimum_lock_time
                   ((lookupKV (LockStatus.new false).previous_lli
                     (⟨.GPS, 5⟩, "1C")).getD DEFAULT_LLI))
                 (calculate_minimum_lock_time 100)
                 (get_lli_coefficient
                   ((lookupKV (LockStatus.new false).previous_lli
                     (⟨.GPS, 5⟩, "1C")).getD DEFAULT_LLI))
                 (get_lli_coefficient 100)
                 (lockDt (lookupKV (LockStatus.new false).previous_epoch
                   (⟨.GPS, 5⟩, "1C")) 0)),
             half_cycle_slip := decide ((1 : Nat) > 0) } :=
  c2_standard_mode_decision (LockStatus.new false) ⟨.GPS, 5⟩ "1C" 0 100 1 rfl

/-- Counterexample for C6: in Simplified (RTKLIB) mode the very first call
for a key with current indicator 0 satisfies `prev_ind == 0 ∧ cur_ind == 0`,
so the LOCK_LOSS bit IS set on first sighting — refuting the claim that both
modes return `OK_OR_UNKNOWN` on first sighting. -/
theorem c6_counterexample :
    ((LockStatus.new true).update_lock_status ⟨.GPS, 1⟩ "1C" 0 0 0).1 =
      some (LliFlags.mk true false) := rfl

/-- Claim C6 (amended): on the first ever call for a `(SV, code)` key
(`prev_ind` defaults to 0 and `Δt = 0`), the returned LLI is `OK_OR_UNKNOWN`
with HALF_CYCLE_SLIP iff the half-cycle flag is positive — except that in
Simplified mode the LOCK_LOSS bit is additionally set when the current
indicator is 0.  In Standard mode LOCK_LOSS is never set on first sighting. -/
theorem c6_first_sighting (mode : Bool) (sv : SV) (code : String) (current_epoch : ℚ)
    (current_lli : Nat) (half_cycle_ambiguity : Nat) :
    ((LockStatus.new mode).update_lock_status sv code current_epoch current_lli
        half_cycle_ambiguity).1 =
      some (LliFlags.mk (mode && decide (current_lli = 0))
        (decide (half_cycle_ambiguity > 0))) := by
  unfold LockStatus.new LockStatus.update_lock_status
  cases mode
  · simp only [Bool.false_eq_true, if_false, lookupKV, Option.getD_none, lockDt, DEFAULT_LLI,
      Bool.false_and]
    rw [lock_loss_chain_eq]
    rw [if_neg (by
      unfold standard_lock_loss_spec
      have hp : calculate_minimum_lock_time 0 = 0 := rfl
      have ha : get_lli_coefficient 0 = 1 := rfl
      rw [hp, ha]
      omega)]
  · simp only [if_true]
    by_cases hc : current_lli = 0
    · simp [lookupKV, DEFAULT_LLI, hc]
    · simp [lookupKV, DEFAULT_LLI, hc]

theorem lookupKV_insertKV_self {α β : Type} [DecidableEq α] (m : List (α × β)) (k : α) (v : β) :
    lookupKV (insertKV m k v) k = some v := by
  induction m with
  | nil => simp [insertKV, lookupKV]
  | cons kv rest ih =>
    obtain ⟨k', v'⟩ := kv
    by_cases h : k' = k
    · simp [insertKV, h, lookupKV]
    · simp [insertKV, h, lookupKV, ih]

theorem lookupKV_insertKV_ne {α β : Type} [DecidableEq α] (m : List (α × β)) (k q : α) (v : β)
    (h : k ≠ q) : lookupKV (insertKV m k v) q = lookupKV m q := by
  induction m with
  | nil => simp [insertKV, lookupKV, h]
  | cons kv rest ih =>
    obtain ⟨k', v'⟩ := kv
    by_cases h' : k' = k
    · subst h'
      simp [insertKV, lookupKV, h]
    · simp [insertKV, h', lookupKV, ih]

/-- Modelled from the spec: the supported (constellation, band) pairs of the
§4.1 frequency table. -/
def supported_signal (c : Constellation) (band : Nat) : Prop :=
  (c = .GPS ∧ (band = 1 ∨ band = 2 ∨ band = 5)) ∨
    (c = .Galileo ∧ (band = 1 ∨ band = 5 ∨ band = 6 ∨ band = 7 ∨ band = 8))

instance (c : Constellation) (band : Nat) : Decidable (supported_signal c band) := by
  unfold supported_signal; infer_instance

/-- Claim C7: `get_frequency` returns exactly the listed Hz values on the
supported (constellation, band) pairs and fails (panics, embedded as `none`)
on every other pair; when that failure occurs inside `process_signals` the
whole row fails before any observable or lock-tracker mutation — the failing
call returns no updated state at all. -/
theorem c7_frequency_table :
    (get_frequency .GPS 1 = some 1575420000 ∧
     get_frequency .GPS 2 = some 1227600000 ∧
     get_frequency .GPS 5 = some 1176450000 ∧
     get_frequency .Galileo 1 = some 1575420000 ∧
     get_frequency .Galileo 5 = some 1176450000 ∧
     get_frequency .Galileo 6 = some 1278750000 ∧
     get_frequency .Galileo 7 = some 1207140000 ∧
     get_frequency .Galileo 8 = some 1191795000) ∧
    (∀ c band, ¬ supported_signal c band → get_frequency c band = none) ∧
    (∀ observations signal lock_status current_epoch,
      get_frequency signal.constellation signal.band = none →
      process_signals observations signal lock_status current_epoch = none) := by
  refine ⟨⟨rfl, rfl, rfl, rfl, rfl, rfl, rfl, rfl⟩, ?_, ?_⟩
  · intro c band h
    cases c
    case GPS =>
      simp only [get_frequency, get_frequency_gps]
      split_ifs with h1 h2 h3
      · exact absurd (Or.inl ⟨rfl, Or.inl h1⟩) h
      · exact absurd (Or.inl ⟨rfl, Or.inr (Or.inl h2)⟩) h
      · exact absurd (Or.inl ⟨rfl, Or.inr (Or.inr h3)⟩) h
      · rfl
    case Galileo =>
      simp only [get_frequency, get_frequency_galileo]
      split_ifs with h1 h2 h3 h4 h5
      · exact absurd (Or.inr ⟨rfl, Or.inl h1⟩) h
      · exact absurd (Or.inr ⟨rfl, Or.inr (Or.inr (Or.inr (Or.inl h2)))⟩) h
      · exact absurd (Or.inr ⟨rfl, Or.inr (Or.inl h3)⟩) h
      · exact absurd (Or.inr ⟨rfl, Or.inr (Or.inr (Or.inl h4))⟩) h
      · exact absurd (Or.inr ⟨rfl, Or.inr (Or.inr (Or.inr (Or.inr h5)))⟩) h
      · rfl
    case Glonass => rfl
    case BeiDou => rfl
  · intro observations signal lock_status current_epoch h
    unfold process_signals
    rw [h]

/-- Witness for C7: GPS band 3 is unsupported, so `get_frequency` fails and a
`process_signals` call on such a row fails without producing a state. -/
theorem c7_frequency_table_witness :
    get_frequency .GPS 3 = none ∧
    process_signals []
      { constellation := .GPS, satellite_id := 5, band := 3, attr := 'X',
        rough_range := none, rough_range_mod1ms := 0, rough_phase_range_rate := none,
        fine_pseudo_range := none, fine_phase_range := none, fine_phase_range_rate := none,
        cnr := none, loss_of_lock_indicator := 0, half_cycle_ambiguity := 0 }
      (LockStatus.new false) 0 = none := by
  constructor
  · exact c7_frequency_table.2.1 .GPS 3 (by decide)
  · exact c7_frequency_table.2.2 _ _ _ _ rfl

/-- Claim C4: for a successfully processed MSM row, each of the four
observables is emitted exactly when its source fields exist, with the spec's
value (`R = (rough_int + rough_mod1ms) · RANGE_MS`, PseudoRange
`R + fine·RANGE_MS`, Phase `(R + fine·RANGE_MS) · f/c` carrying the lock
tracker's LLI, Doppler `−(rough_rate + fine_rate) · f/c`, SSI `cnr`); a
missing optional field leaves only that observable's entry unchanged. -/
theorem c4_observable_synthesis (observations : SvMap) (signal : MsmData)
    (lock_status : LockStatus) (current_epoch : ℚ) (f : ℚ)
    (hf : get_frequency signal.constellation signal.band = some f)
    (observations' : SvMap) (lock_status' : LockStatus)
    (hrun : process_signals observations signal lock_status current_epoch =
      some (observations', lock_status')) :
    (∀ r fp,
      signal.rough_range.map
        (fun rr => ((rr : ℚ) + signal.rough_range_mod1ms) * RANGE_MS) = some r →
      signal.fine_pseudo_range = some fp →
      lookupKV ((lookupKV observations'
          ⟨signal.constellation, signal.satellite_id⟩).getD [])
        (Observable.pseudoRange (codeStr signal.band signal.attr)) =
        some ⟨r + fp * RANGE_MS, none, none⟩) ∧
    ((signal.rough_range = none ∨ signal.fine_pseudo_range = none) →
      lookupKV ((lookupKV observations'
          ⟨signal.constellation, signal.satellite_id⟩).getD [])
        (Observable.pseudoRange (codeStr signal.band signal.attr)) =
        lookupKV ((lookupKV observations
          ⟨signal.constellation, signal.satellite_id⟩).getD [])
          (Observable.pseudoRange (codeStr signal.band signal.attr))) ∧
    (∀ r fp,
      signal.rough_range.map
        (fun rr => ((rr : ℚ) + signal.rough_range_mod1ms) * RANGE_MS) = some r →
      signal.fine_phase_range = some fp →
      lookupKV ((lookupKV observations'
          ⟨signal.constellation, signal.satellite_id⟩).getD [])
        (Observable.phase (codeStr signal.band signal.attr)) =
        some ⟨(r + fp * RANGE_MS) * (f / C_LIGHT),
          (lock_status.update_lock_status ⟨signal.constellation, signal.satellite_id⟩
            (codeStr signal.band signal.attr) current_epoch
            signal.loss_of_lock_indicator signal.half_cycle_ambiguity).1, none⟩) ∧
    ((signal.rough_range = none ∨ signal.fine_phase_range = none) →
      lookupKV ((lookupKV observations'
          ⟨signal.constellation, signal.satellite_id⟩).getD [])
        (Observable.phase (codeStr signal.band signal.attr)) =
        lookupKV ((lookupKV observations
          ⟨signal.constellation, signal.satellite_id⟩).getD [])
          (Observable.phase (codeStr signal.band signal.attr))) ∧
    (∀ rr fr, signal.rough_phase_range_rate = some rr →
      signal.fine_phase_range_rate = some fr →
      lookupKV ((lookupKV observations'
          ⟨signal.constellation, signal.satellite_id⟩).getD [])
        (Observable.doppler (codeStr signal.band signal.attr)) =
        some ⟨(-((rr : ℚ) + fr)) * (f / C_LIGHT), none, none⟩) ∧
    ((signal.rough_phase_range_rate = none ∨ signal.fine_phase_range_rate = none) →
      lookupKV ((lookupKV observations'
          ⟨signal.constellation, signal.satellite_id⟩).getD [])
        (Observable.doppler (codeStr signal.band signal.attr)) =
        lookupKV ((lookupKV observations
          ⟨signal.constellation, signal.satellite_id⟩).getD [])
          (Observable.doppler (codeStr signal.band signal.attr))) ∧
    (∀ c, signal.cnr = some c →
      lookupKV ((lookupKV observations'
          ⟨signal.constellation, signal.satellite_id⟩).getD [])
        (Observable.ssi (codeStr signal.band signal.attr)) =
        some ⟨c, none, none⟩) ∧
    (signal.cnr = none →
      lookupKV ((lookupKV observations'
          ⟨signal.constellation, signal.satellite_id⟩).getD [])
        (Observable.ssi (codeStr signal.band signal.attr)) =
        lookupKV ((lookupKV observations
          ⟨signal.constellation, signal.satellite_id⟩).getD [])
          (Observable.ssi (codeStr signal.band signal.attr))) := by
  unfold process_signals at hrun
  rw [hf] at hrun
  simp only [Option.some.injEq, Prod.mk.injEq] at hrun
  obtain ⟨hobs, hlock⟩ := hrun
  subst hobs
  rw [lookupKV_insertKV_self]
  simp only [Option.getD_some]
  rcases hrr : signal.rough_range with _ | rr <;>
    rcases hfp : signal.fine_pseudo_range with _ | fp <;>
    rcases hfc : signal.fine_phase_range with _ | fc <;>
    rcases hdr : signal.rough_phase_range_rate with _ | dr <;>
    rcases hdf : signal.fine_phase_range_rate with _ | df <;>
    rcases hcn : signal.cnr with _ | cn <;>
    simp [hrr, hfp, hfc, hdr, hdf, hcn, lookupKV_insertKV_self, lookupKV_insertKV_ne,
      add_mul]

/-- A fully populated MSM row used as a concrete test vector. -/
def c4sig : MsmData :=
  { constellation := .GPS, satellite_id := 5, band := 1, attr := 'C',
    rough_range := some 0, rough_range_mod1ms := 0, rough_phase_range_rate := some 0,
    fine_pseudo_range := some 0, fine_phase_range := some 0, fine_phase_range_rate := some 0,
    cnr := some 45, loss_of_lock_indicator := 0, half_cycle_ambiguity := 0 }

/-- The observation map `process_signals` produces for `c4sig` from empty state. -/
def c4obs : SvMap :=
  [(⟨.GPS, 5⟩,
    [(Observable.pseudoRange "1C", ⟨0, none, none⟩),
     (Observable.phase "1C", ⟨0, some ⟨false, false⟩, none⟩),
     (Observable.doppler "1C", ⟨0, none, none⟩),
     (Observable.ssi "1C", ⟨45, none, none⟩)])]

/-- The lock-tracker state after processing `c4sig` from empty state. -/
def c4lock : LockStatus :=
  ⟨false, [((⟨.GPS, 5⟩, "1C"), 0)], [((⟨.GPS, 5⟩, "1C"), 0)]⟩

/-- Witness for C4: the synthesis theorem applied to the concrete row
`c4sig`, reading back its SSI observable. -/
theorem c4_observable_synthesis_witness :
    lookupKV ((lookupKV c4obs ⟨.GPS, 5⟩).getD [])
      (Observable.ssi (codeStr 1 'C')) = some ⟨45, none, none⟩ :=
  (c4_observable_synthesis [] c4sig (LockStatus.new false) 0 1575420000 rfl c4obs c4lock
    (by with_unfolding_all rfl)).2.2.2.2.2.2.1 45 rfl

theorem process_signals_isSome (observations : SvMap) (signal : MsmData)
    (lock_status : LockStatus) (current_epoch : ℚ)
    (h : (get_frequency signal.constellation signal.band).isSome) :
    (process_signals observations signal lock_status current_epoch).isSome := by
  obtain ⟨f, hf⟩ := Option.isSome_iff_exists.1 h
  unfold process_signals
  rw [hf]
  rfl

theorem msmRows_isSome {σ τ : Type} (satMap : List (Nat × σ)) (sigId : τ → Nat)
    (build : τ → σ → MsmData) (current_epoch : ℚ) (sigs : List τ)
    (observations : SvMap) (lock_status : LockStatus)
    (h : ∀ sig ∈ sigs, (lookupKV satMap (sigId sig)).isSome ∧
      ∀ sat, (get_frequency (build sig sat).constellation (build sig sat).band).isSome) :
    (msmRows satMap sigId build current_epoch sigs observations lock_status).isSome := by
  induction sigs generalizing observations lock_status with
  | nil => rfl
  | cons sig rest ih =>
    obtain ⟨h1, h2⟩ := h sig (List.mem_cons_self sig rest)
    obtain ⟨sat, hsat⟩ := Option.isSome_iff_exists.1 h1
    obtain ⟨⟨observations', lock_status'⟩, hres⟩ := Option.isSome_iff_exists.1
      (process_signals_isSome observations (build sig sat) lock_status current_epoch (h2 sat))
    unfold msmRows
    simp only [hsat, hres]
    exact ih observations' lock_status'
      (fun s hs => h s (List.mem_cons_of_mem sig hs))

theorem msmRows_none_of_missing {σ τ : Type} (satMap : List (Nat × σ)) (sigId : τ → Nat)
    (build : τ → σ → MsmData) (current_epoch : ℚ) (sigs : List τ)
    (observations : SvMap) (lock_status : LockStatus)
    (h : ∃ sig ∈ sigs, lookupKV satMap (sigId sig) = none) :
    msmRows satMap sigId build current_epoch sigs observations lock_status = none := by
  induction sigs generalizing observations lock_status with
  | nil => simp at h
  | cons sig rest ih =>
    obtain ⟨s, hs, hnone⟩ := h
    rcases List.mem_cons.1 hs with rfl | hmem
    · unfold msmRows
      simp only [hnone]
    · unfold msmRows
      split
      · rfl
      · split
        · rfl
        · exact ih _ _ ⟨s, hmem, hnone⟩

theorem lookupKV_foldl_insert_isSome {σ : Type} (satId : σ → Nat) (sats : List σ)
    (acc : List (Nat × σ)) (x : Nat)
    (h : (lookupKV acc x).isSome ∨ ∃ s ∈ sats, satId s = x) :
    (lookupKV (sats.foldl (fun m s => insertKV m (satId s) s) acc) x).isSome := by
  induction sats generalizing acc with
  | nil =>
    rcases h with hacc | hex
    · exact hacc
    · simp at hex
  | cons s rest ih =>
    simp only [List.foldl_cons]
    apply ih
    rcases h with hacc | ⟨t, ht, hx⟩
    · left
      by_cases hsx : satId s = x
      · rw [hsx, lookupKV_insertKV_self]
        rfl
      · rw [lookupKV_insertKV_ne _ _ _ _ hsx]
        exact hacc
    · rcases List.mem_cons.1 ht with rfl | hmem
      · left
        rw [hx, lookupKV_insertKV_self]
        rfl
      · right
        exact ⟨t, hmem, hx⟩

theorem lookupKV_foldl_insert_none {σ : Type} (satId : σ → Nat) (sats : List σ)
    (acc : List (Nat × σ)) (x : Nat)
    (hacc : lookupKV acc x = none) (h : ∀ s ∈ sats, satId s ≠ x) :
    lookupKV (sats.foldl (fun m s => insertKV m (satId s) s) acc) x = none := by
  induction sats generalizing acc with
  | nil => exact hacc
  | cons s rest ih =>
    simp only [List.foldl_cons]
    apply ih
    · rw [lookupKV_insertKV_ne _ _ _ _ (h s (List.mem_cons_self s rest))]
      exact hacc
    · exact fun t ht => h t (List.mem_cons_of_mem s ht)

/-- Claim C9: each `process_msm*` completes (returns a result) when every
signal row's satellite id occurs in the message's satellite list and every
signal's (constellation, band) is supported; conversely a signal row whose
satellite id is absent from the satellite list makes the whole call panic
(embedded as `none`) instead of skipping the row. -/
theorem c9_msm_satellite_lookup :
    (∀ sats sigs lock_status current_epoch,
      (∀ sig ∈ sigs, (∃ s ∈ sats, Msm46Sat.satellite_id s = Msm46Sig.satellite_id sig) ∧
        (get_frequency .GPS sig.band).isSome) →
      (process_msm1074 sats sigs lock_status current_epoch).isSome) ∧
    (∀ sats sigs lock_status current_epoch,
      (∃ sig ∈ sigs, ∀ s ∈ sats, Msm46Sat.satellite_id s ≠ Msm46Sig.satellite_id sig) →
      process_msm1074 sats sigs lock_status current_epoch = none) ∧
    (∀ sats sigs lock_status current_epoch,
      (∀ sig ∈ sigs, (∃ s ∈ sats, Msm57Sat.satellite_id s = Msm57Sig.satellite_id sig) ∧
        (get_frequency .GPS sig.band).isSome) →
      (process_msm1077 sats sigs lock_status current_epoch).isSome) ∧
    (∀ sats sigs lock_status current_epoch,
      (∃ sig ∈ sigs, ∀ s ∈ sats, Msm57Sat.satellite_id s ≠ Msm57Sig.satellite_id sig) →
      process_msm1077 sats sigs lock_status current_epoch = none) ∧
    (∀ sats sigs lock_status current_epoch,
      (∀ sig ∈ sigs, (∃ s ∈ sats, Msm46Sat.satellite_id s = Msm46Sig.satellite_id sig) ∧
        (get_frequency .Galileo sig.band).isSome) →
      (process_msm1094 sats sigs lock_status current_epoch).isSome) ∧
    (∀ sats sigs lock_status current_epoch,
      (∃ sig ∈ sigs, ∀ s ∈ sats, Msm46Sat.satellite_id s ≠ Msm46Sig.satellite_id sig) →
      process_msm1094 sats sigs lock_status current_epoch = none) ∧
    (∀ sats sigs lock_status current_epoch,
      (∀ sig ∈ sigs, (∃ s ∈ sats, Msm57Sat.satellite_id s = Msm57Sig.satellite_id sig) ∧
        (get_frequency .Galileo sig.band).isSome) →
      (process_msm1097 sats sigs lock_status current_epoch).isSome) ∧
    (∀ sats sigs lock_status current_epoch,
      (∃ sig ∈ sigs, ∀ s ∈ sats, Msm57Sat.satellite_id s ≠ Msm57Sig.satellite_id sig) →
      process_msm1097 sats sigs lock_status current_epoch = none) := by
  refine ⟨?_, ?_, ?_, ?_, ?_, ?_, ?_, ?_⟩ <;>
    intro sats sigs lock_status current_epoch h
  · apply msmRows_isSome
    intro sig hs
    exact ⟨lookupKV_foldl_insert_isSome _ _ _ _ (Or.inr ((h sig hs).1)), fun sat => (h sig hs).2⟩
  · obtain ⟨sig, hs, hmiss⟩ := h
    exact msmRows_none_of_missing _ _ _ _ _ _ _
      ⟨sig, hs, lookupKV_foldl_insert_none _ _ _ _ rfl hmiss⟩
  · apply msmRows_isSome
    intro sig hs
    exact ⟨lookupKV_foldl_insert_isSome _ _ _ _ (Or.inr ((h sig hs).1)), fun sat => (h sig hs).2⟩
  · obtain ⟨sig, hs, hmiss⟩ := h
    exact msmRows_none_of_missing _ _ _ _ _ _ _
      ⟨sig, hs, lookupKV_foldl_insert_none _ _ _ _ rfl hmiss⟩
  · apply msmRows_isSome
    intro sig hs
    exact ⟨lookupKV_foldl_insert_isSome _ _ _ _ (Or.inr ((h sig hs).1)), fun sat => (h sig hs).2⟩
  · obtain ⟨sig, hs, hmiss⟩ := h
    exact msmRows_none_of_missing _ _ _ _ _ _ _
      ⟨sig, hs, lookupKV_foldl_insert_none _ _ _ _ rfl hmiss⟩
  · apply msmRows_isSome
    intro sig hs
    exact ⟨lookupKV_foldl_insert_isSome _ _ _ _ (Or.inr ((h sig hs).1)), fun sat => (h sig hs).2⟩
  · obtain ⟨sig, hs, hmiss⟩ := h
    exact msmRows_none_of_missing _ _ _ _ _ _ _
      ⟨sig, hs, lookupKV_foldl_insert_none _ _ _ _ rfl hmiss⟩

/-- Witness for C9: a 1077 message whose only signal's satellite is present
completes, and the same message with an empty satellite list panics. -/
theorem c9_msm_satellite_lookup_witness :
    (process_msm1077 [⟨5, none, 0, none⟩] [⟨5, 1, 'C', 0, 0, none, none, none, none⟩]
      (LockStatus.new false) 0).isSome ∧
    process_msm1077 [] [⟨5, 1, 'C', 0, 0, none, none, none, none⟩]
      (LockStatus.new false) 0 = none := by
  constructor
  · exact c9_msm_satellite_lookup.2.2.1 _ _ _ _ (by
      intro sig hs
      rcases List.mem_singleton.1 hs with rfl
      exact ⟨⟨⟨5, none, 0, none⟩, List.mem_singleton.2 rfl, rfl⟩, by decide⟩)
  · exact c9_msm_satellite_lookup.2.2.2.1 _ _ _ _
      ⟨⟨5, 1, 'C', 0, 0, none, none, none, none⟩, List.mem_singleton.2 rfl, by simp⟩

/-- The per-observation LLI discipline: Phase entries carry `some` LLI,
all other observables carry `none`. -/
def obsLliOk (ob : Observable) (d : ObservationData) : Bool :=
  if ob.isPhase then d.lli.isSome else d.lli.isNone

def sigMapLliOk (m : SignalMap) : Bool :=
  m.all fun kv => obsLliOk kv.1 kv.2

def svMapLliOk (m : SvMap) : Bool :=
  m.all fun kv => sigMapLliOk kv.2

def tableLliOk (t : ObsTable) : Bool :=
  t.all fun kv => svMapLliOk kv.2.2

theorem all_insertKV {α β : Type} [DecidableEq α] (m : List (α × β)) (k : α) (v : β)
    (P : α × β → Bool) (hm : m.all P = true) (hv : P (k, v) = true) :
    (insertKV m k v).all P = true := by
  induction m with
  | nil => simp [insertKV, hv]
  | cons kv rest ih =>
    obtain ⟨k', v'⟩ := kv
    simp only [List.all_cons, Bool.and_eq_true] at hm
    by_cases h : k' = k
    · simp [insertKV, h, hv, hm.2]
    · simp [insertKV, h, hm.1, ih hm.2]

theorem all_lookupKV {α β : Type} [DecidableEq α] (m : List (α × β)) (P : α × β → Bool)
    (hm : m.all P = true) (k : α) (v : β) (hl : lookupKV m k = some v) : P (k, v) = true := by
  induction m with
  | nil => simp [lookupKV] at hl
  | cons kv rest ih =>
    obtain ⟨k', v'⟩ := kv
    simp only [List.all_cons, Bool.and_eq_true] at hm
    unfold lookupKV at hl
    by_cases h : k' = k
    · rw [if_pos h] at hl
      obtain rfl := Option.some.injEq _ _ ▸ hl
      subst h
      exact hm.1
    · rw [if_neg h] at hl
      exact ih hm.2 hl

theorem all_appendKV {α β : Type} [DecidableEq α] (old other : List (α × β))
    (P : α × β → Bool) (hold : old.all P = true) (hother : other.all P = true) :
    (appendKV old other).all P = true := by
  induction other generalizing old with
  | nil => exact hold
  | cons kv rest ih =>
    simp only [List.all_cons, Bool.and_eq_true] at hother
    exact ih (insertKV old kv.1 kv.2) (all_insertKV old kv.1 kv.2 P hold hother.1) hother.2

theorem process_signals_lliOk (observations : SvMap) (signal : MsmData)
    (lock_status : LockStatus) (current_epoch : ℚ)
    (observations' : SvMap) (lock_status' : LockStatus)
    (hm : svMapLliOk observations = true)
    (hrun : process_signals observations signal lock_status current_epoch =
      some (observations', lock_status')) :
    svMapLliOk observations' = true := by
  unfold process_signals at hrun
  cases hf : get_frequency signal.constellation signal.band with
  | none =>
    rw [hf] at hrun
    exact absurd hrun (by simp)
  | some f =>
    rw [hf] at hrun
    simp only [Option.some.injEq, Prod.mk.injEq] at hrun
    obtain ⟨hobs, -⟩ := hrun
    subst hobs
    have h0 : sigMapLliOk
        ((lookupKV observations ⟨signal.constellation, signal.satellite_id⟩).getD []) = true := by
      cases hl : lookupKV observations ⟨signal.constellation, signal.satellite_id⟩ with
      | none => rfl
      | some sm => exact all_lookupKV observations _ hm _ sm hl
    apply all_insertKV _ _ _ _ hm
    rcases hrr : signal.rough_range with _ | rr <;>
      rcases hfp : signal.fine_pseudo_range with _ | fp <;>
      rcases hfc : signal.fine_phase_range with _ | fc <;>
      rcases hdr : signal.rough_phase_range_rate with _ | dr <;>
      rcases hdf : signal.fine_phase_range_rate with _ | df <;>
      rcases hcn : signal.cnr with _ | cn <;>
      simp only [hrr, hfp, hfc, hdr, hdf, hcn] <;>
      repeat
        first
          | exact h0
          | refine all_insertKV _ _ _ _ ?_ (by rfl)

theorem msmRows_lliOk {σ τ : Type} (satMap : List (Nat × σ)) (sigId : τ → Nat)
    (build : τ → σ → MsmData) (current_epoch : ℚ) (sigs : List τ)
    (observations : SvMap) (lock_status : LockStatus)
    (observations' : SvMap) (lock_status' : LockStatus)
    (hm : svMapLliOk observations = true)
    (hrun : msmRows satMap sigId build current_epoch sigs observations lock_status =
      some (observations', lock_status')) :
    svMapLliOk observations' = true := by
  induction sigs generalizing observations lock_status with
  | nil =>
    unfold msmRows at hrun
    simp only [Option.some.injEq, Prod.mk.injEq] at hrun
    obtain ⟨hobs, -⟩ := hrun
    subst hobs
    exact hm
  | cons sig rest ih =>
    unfold msmRows at hrun
    split at hrun
    · exact absurd hrun (by simp)
    · split at hrun
      · exact absurd hrun (by simp)
      · next observations1 lock_status1 heq =>
        exact ih _ _ (process_signals_lliOk _ _ _ _ _ _ hm heq) hrun

theorem step_lliOk (st : ConvertState) (m : Message) (st' : ConvertState)
    (hm : tableLliOk st.rinex_data = true) (hrun : step st m = some st') :
    tableLliOk st'.rinex_data = true := by
  have hmerge : ∀ (msm_epoch : ℚ) (observations : SvMap),
      svMapLliOk observations = true →
      tableLliOk (mergeEpoch st.rinex_data (msm_epoch, EpochFlag.Ok) observations) = true := by
    intro e obs hobs
    unfold mergeEpoch
    cases hl : lookupKV st.rinex_data (e, EpochFlag.Ok) with
    | none => exact all_insertKV _ _ _ _ hm hobs
    | some group =>
      refine all_insertKV _ _ _ _ hm ?_
      exact all_appendKV _ _ _ (all_lookupKV _ _ hm _ _ hl) hobs
  have hmsm : ∀ {σ τ : Type} (satMap : List (Nat × σ)) (sigId : τ → Nat)
      (build : τ → σ → MsmData) (msm_epoch : ℚ) (sigs : List τ)
      (result : Option (SvMap × LockStatus)),
      result = msmRows satMap sigId build msm_epoch sigs [] st.lock_status →
      stepMsm st msm_epoch result = some st' → tableLliOk st'.rinex_data = true := by
    intro σ τ satMap sigId build e sigs result hres hstep
    cases result with
    | none => exact absurd hstep (by simp [stepMsm])
    | some r =>
      obtain ⟨obs, ls'⟩ := r
      unfold stepMsm at hstep
      simp only [Option.some.injEq] at hstep
      subst hstep
      exact hmerge e obs
        (msmRows_lliOk satMap sigId build e sigs [] st.lock_status obs ls' rfl hres.symm)
  cases m with
  | msg1019 w =>
    unfold step at hrun
    simp only [Option.some.injEq] at hrun
    subst hrun
    exact hm
  | msg1046 w =>
    unfold step at hrun
    simp only [Option.some.injEq] at hrun
    subst hrun
    exact hm
  | msg1074 t sats sigs =>
    unfold step at hrun
    cases hw : st.gps_week with
    | none =>
      rw [hw] at hrun
      simp only [Option.some.injEq] at hrun
      subst hrun
      exact hm
    | some week =>
      rw [hw] at hrun
      exact hmsm _ _ _ _ _ _ rfl hrun
  | msg1077 t sats sigs =>
    unfold step at hrun
    cases hw : st.gps_week with
    | none =>
      rw [hw] at hrun
      simp only [Option.some.injEq] at hrun
      subst hrun
      exact hm
    | some week =>
      rw [hw] at hrun
      exact hmsm _ _ _ _ _ _ rfl hrun
  | msg1094 t sats sigs =>
    unfold step at hrun
    cases hw : st.galileo_week with
    | none =>
      rw [hw] at hrun
      simp only [Option.some.injEq] at hrun
      subst hrun
      exact hm
    | some week =>
      rw [hw] at hrun
      exact hmsm _ _ _ _ _ _ rfl hrun
  | msg1097 t sats sigs =>
    unfold step at hrun
    cases hw : st.galileo_week with
    | none =>
      rw [hw] at hrun
      simp only [Option.some.injEq] at hrun
      subst hrun
      exact hm
    | some week =>
      rw [hw] at hrun
      exact hmsm _ _ _ _ _ _ rfl hrun
  | otherMessage =>
    unfold step at hrun
    simp only [Option.some.injEq] at hrun
    subst hrun
    exact hm

theorem runMessages_lliOk (msgs : List Message) (st st' : ConvertState)
    (hm : tableLliOk st.rinex_data = true) (hrun : runMessages st msgs = some st') :
    tableLliOk st'.rinex_data = true := by
  induction msgs generalizing st with
  | nil =>
    unfold runMessages at hrun
    simp only [Option.some.injEq] at hrun
    subst hrun
    exact hm
  | cons m rest ih =>
    unfold runMessages at hrun
    split at hrun
    · exact absurd hrun (by simp)
    · next st1 heq => exact ih st1 (step_lliOk st m st1 hm heq) hrun

/-- Claim C8: in every completed run, in either lock mode, every Phase
observation stored in the final table has `lli = some _` and every
PseudoRange, Doppler or SSI observation has `lli = none`. -/
theorem c8_phase_lli_invariant (use_rtklib_lli : Bool) (msgs : List Message)
    (st : ConvertState) (hrun : convert_core use_rtklib_lli msgs = some st) :
    tableLliOk st.rinex_data = true :=
  runMessages_lliOk msgs (initState use_rtklib_lli) st rfl hrun

theorem codeStr_1C : codeStr 1 'C' = "1C" := by decide

theorem obs_pseudo_ne_phase (a b : String) :
    (Observable.pseudoRange a = Observable.phase b) = False :=
  eq_false fun h => Observable.noConfusion h

theorem obs_pseudo_ne_doppler (a b : String) :
    (Observable.pseudoRange a = Observable.doppler b) = False :=
  eq_false fun h => Observable.noConfusion h

theorem obs_pseudo_ne_ssi (a b : String) :
    (Observable.pseudoRange a = Observable.ssi b) = False :=
  eq_false fun h => Observable.noConfusion h

theorem obs_phase_ne_doppler (a b : String) :
    (Observable.phase a = Observable.doppler b) = False :=
  eq_false fun h => Observable.noConfusion h

theorem obs_phase_ne_ssi (a b : String) :
    (Observable.phase a = Observable.ssi b) = False :=
  eq_false fun h => Observable.noConfusion h

theorem obs_doppler_ne_ssi (a b : String) :
    (Observable.doppler a = Observable.ssi b) = False :=
  eq_false fun h => Observable.noConfusion h

/-- A lone Galileo MSM7 message (no 1046 ever seen before it). -/
def exMsg : Message := .msg1097 300000 [⟨11, some 75, 0, some 0⟩]
  [⟨11, 1, 'C', 0, 0, some 0, some 0, some 0, some 45⟩]

/-- The epoch the decoder assigns to `exMsg` using the hard-coded week 1310:
`1024·604800 + 1310·604800 + 300`. -/
def exEpoch : ℚ := 1411603500

/-- The full decoder state after running `[exMsg]` from the initial state. -/
def exState : ConvertState :=
  { gps_week := some 2334
    galileo_week := some 1310
    first_epoch := some exEpoch
    last_epoch := some exEpoch
    lock_status := ⟨false, [((⟨.Galileo, 11⟩, "1C"), 0)], [((⟨.Galileo, 11⟩, "1C"), exEpoch)]⟩
    observed_signals := [(.Galileo, "1C")]
    rinex_data := [((exEpoch, .Ok),
      (some 0, [(⟨.Galileo, 11⟩,
        [(Observable.pseudoRange "1C", ⟨22484434350 / 1000, none, none⟩),
         (Observable.phase "1C", ⟨118156500, some ⟨false, false⟩, none⟩),
         (Observable.doppler "1C", ⟨0, none, none⟩),
         (Observable.ssi "1C", ⟨45, none, none⟩)])]))] }

theorem exRun : convert_core false [exMsg] = some exState := by
  norm_num [convert_core, runMessages, step, stepMsm, initState, exMsg, exState, exEpoch,
    process_msm1097, msmRows, buildSatMap, process_signals, build1097, build1077,
    LockStatus.new, LockStatus.update_lock_status, mergeEpoch, extract_observed_signals,
    lookupKV, insertKV, appendKV, setInsert, codeStr_1C, get_frequency, get_frequency_galileo,
    calculate_minimum_lock_time, get_lli_coefficient, lockDt, rtcm_galileo_time2epoch,
    GST_MINUS_GPST_SECONDS, SECONDS_PER_WEEK, RANGE_MS, C_LIGHT, FREQL1, DEFAULT_LLI,
    Observable.code, Observable.isPhase, obs_pseudo_ne_phase, obs_pseudo_ne_doppler,
    obs_pseudo_ne_ssi, obs_phase_ne_doppler, obs_phase_ne_ssi, obs_doppler_ne_ssi]

/-- Witness for C8: the invariant read back on the concrete one-message run. -/
theorem c8_phase_lli_invariant_witness : tableLliOk exState.rinex_data = true :=
  c8_phase_lli_invariant false [exMsg] exState exRun

/-- Claim C1 is violated by the code: `convert_file` initializes
`galileo_week` (and `gps_week`) to hard-coded `Some` values, so a 1097
arriving before any 1046 is fully processed — it fills the table, sets
`first_epoch` and records lock-tracker state, where the spec requires it to
be dropped with the table left empty. -/
theorem c1_msm_processed_without_ephemeris :
    (initState false).galileo_week = some 1310 ∧
    (initState false).gps_week = some 2334 ∧
    convert_core false [exMsg] = some exState ∧
    exState.rinex_data ≠ [] ∧
    exState.first_epoch = some exEpoch ∧
    exState.lock_status.previous_lli ≠ [] := by
  refine ⟨rfl, rfl, exRun, ?_, rfl, ?_⟩
  · simp [exState]
  · simp [exState]

/-- GPS MSM7 message carrying only an SSI observable for (GPS, 5). -/
def c5msgA : Message := .msg1077 300000 [⟨5, none, 0, none⟩]
  [⟨5, 1, 'C', 0, 0, none, none, none, some 45⟩]

/-- GPS MSM7 message at the same epoch carrying only a PseudoRange for
(GPS, 5). -/
def c5msgB : Message := .msg1077 300000 [⟨5, some 75, 0, none⟩]
  [⟨5, 1, 'C', 0, 0, some 0, none, none, none⟩]

/-- The common epoch of `c5msgA` and `c5msgB`: `2334·604800 + 300`. -/
def c5epoch : ℚ := 1411603500

/-- Counterexample for C5: after `c5msgA` alone the table holds the S1C
observation of (GPS, 5); merging `c5msgB` at the same epoch replaces the
whole observable map of (GPS, 5), so the S1C entry — a different
`(SV, ObservableKey)` pair than the one inserted — does NOT remain in the
final table. -/
theorem c5_counterexample :
    tableLookup (convert_core false [c5msgA]) c5epoch ⟨.GPS, 5⟩ (Observable.ssi "1C") =
      some ⟨45, none, none⟩ ∧
    tableLookup (convert_core false [c5msgA, c5msgB]) c5epoch ⟨.GPS, 5⟩
      (Observable.ssi "1C") = none := by
  constructor <;>
    norm_num [tableLookup, convert_core, runMessages, step, stepMsm, initState, c5msgA, c5msgB,
      c5epoch, process_msm1077, msmRows, buildSatMap, process_signals, build1077,
      LockStatus.new, LockStatus.update_lock_status, mergeEpoch, extract_observed_signals,
      lookupKV, insertKV, appendKV, setInsert, codeStr_1C, get_frequency, get_frequency_gps,
      calculate_minimum_lock_time, get_lli_coefficient, lockDt, rtcm_gps_time2epoch,
      SECONDS_PER_WEEK, RANGE_MS, C_LIGHT, FREQL1, DEFAULT_LLI,
      Observable.code, Observable.isPhase, obs_pseudo_ne_phase, obs_pseudo_ne_doppler,
      obs_pseudo_ne_ssi, obs_phase_ne_doppler, obs_phase_ne_ssi, obs_doppler_ne_ssi]

theorem lookupKV_eq_none_of_not_mem {α β : Type} [DecidableEq α] (m : List (α × β)) (k : α)
    (h : k ∉ m.map Prod.fst) : lookupKV m k = none := by
  induction m with
  | nil => rfl
  | cons kv rest ih =>
    simp only [List.map_cons, List.mem_cons, not_or] at h
    unfold lookupKV
    rw [if_neg (fun he => h.1 he.symm)]
    exact ih h.2

theorem lookupKV_cons {α β : Type} [DecidableEq α] (k : α) (v : β) (rest : List (α × β))
    (key : α) :
    lookupKV ((k, v) :: rest) key = if k = key then some v else lookupKV rest key := rfl

theorem lookupKV_appendKV {α β : Type} [DecidableEq α] (old other : List (α × β)) (k : α)
    (hnodup : (other.map Prod.fst).Nodup) :
    lookupKV (appendKV old other) k =
      ((lookupKV other k).or (lookupKV old k)) := by
  induction other generalizing old with
  | nil => simp [appendKV, lookupKV]
  | cons kv rest ih =>
    obtain ⟨k', v'⟩ := kv
    simp only [List.map_cons, List.nodup_cons] at hnodup
    have hstep : appendKV old ((k', v') :: rest) = appendKV (insertKV old k' v') rest := rfl
    rw [hstep, ih _ hnodup.2]
    by_cases hk : k' = k
    · subst hk
      rw [lookupKV_eq_none_of_not_mem rest k' hnodup.1, lookupKV_insertKV_self,
        lookupKV_cons, if_pos rfl]
      rfl
    · rw [lookupKV_insertKV_ne _ _ _ _ hk, lookupKV_cons, if_neg hk]

/-- Claim C5 (amended): merging a message's observations into an existing
epoch group keeps the group's clock offset and replaces entries at
**SV granularity**: for each SV the merged group holds the message's entire
new observable map when the SV occurs in the message, and the previous map
otherwise — so other observables of an SV stored by an earlier message at
the same epoch do not survive a later message for that SV. -/
theorem c5_merge_replaces_per_sv (table : ObsTable) (ekey : EpochKey) (g : EpochGroup)
    (observations : SvMap) (hg : lookupKV table ekey = some g)
    (hnodup : (observations.map Prod.fst).Nodup) :
    lookupKV (mergeEpoch table ekey observations) ekey =
      some (g.1, appendKV g.2 observations) ∧
    ∀ sv : SV, lookupKV (appendKV g.2 observations) sv =
      ((lookupKV observations sv).or (lookupKV g.2 sv)) := by
  constructor
  · unfold mergeEpoch
    rw [hg]
    exact lookupKV_insertKV_self table ekey _
  · intro sv
    exact lookupKV_appendKV g.2 observations sv hnodup

/-- Witness for C5's amended theorem: a concrete one-group table merged with
a one-SV observation map. -/
theorem c5_merge_replaces_per_sv_witness :
    lookupKV (mergeEpoch [((0, EpochFlag.Ok), (some 0, [(⟨.GPS, 1⟩, [])]))]
        (0, EpochFlag.Ok) [(⟨.GPS, 2⟩, [])]) (0, EpochFlag.Ok) =
      some (some 0, appendKV [(⟨.GPS, 1⟩, [])] [(⟨.GPS, 2⟩, [])]) :=
  (c5_merge_replaces_per_sv [((0, EpochFlag.Ok), (some 0, [(⟨.GPS, 1⟩, [])]))]
    (0, EpochFlag.Ok) (some 0, [(⟨.GPS, 1⟩, [])]) [(⟨.GPS, 2⟩, [])]
    (by simp [lookupKV]) (by simp)).1

/-- Pointwise agreement of two signal maps: identical spine and observable
keys, identical `obs` and `snr` values, and identical `lli` except on Phase
observables (where it is unconstrained). -/
inductive sigMapAgree : SignalMap → SignalMap → Prop
  | nil : sigMapAgree [] []
  | cons (k : Observable) (v1 v2 : ObservationData) (r1 r2 : SignalMap) :
      v1.obs = v2.obs → v1.snr = v2.snr → (k.isPhase = false → v1.lli = v2.lli) →
      sigMapAgree r1 r2 → sigMapAgree ((k, v1) :: r1) ((k, v2) :: r2)

/-- Agreement of two per-SV maps: identical SVs with agreeing signal maps. -/
inductive svMapAgree : SvMap → SvMap → Prop
  | nil : svMapAgree [] []
  | cons (k : SV) (v1 v2 : SignalMap) (r1 r2 : SvMap) :
      sigMapAgree v1 v2 → svMapAgree r1 r2 →
      svMapAgree ((k, v1) :: r1) ((k, v2) :: r2)

/-- Agreement of two epoch tables: identical epoch keys and clock offsets
with agreeing per-SV maps. -/
inductive tableAgree : ObsTable → ObsTable → Prop
  | nil : tableAgree [] []
  | cons (k : EpochKey) (g1 g2 : EpochGroup) (r1 r2 : ObsTable) :
      g1.1 = g2.1 → svMapAgree g1.2 g2.2 → tableAgree r1 r2 →
      tableAgree ((k, g1) :: r1) ((k, g2) :: r2)

/-- Agreement of two lock trackers: identical histories (the mode flag is
free). -/
def lockAgree (l1 l2 : LockStatus) : Prop :=
  l1.previous_lli = l2.previous_lli ∧ l1.previous_epoch = l2.previous_epoch

/-- Agreement of two decoder states: every component equal except that the
tables may differ in the `lli` of Phase observations and the lock trackers in
their mode flag. -/
def stateAgree (s1 s2 : ConvertState) : Prop :=
  s1.gps_week = s2.gps_week ∧ s1.galileo_week = s2.galileo_week ∧
  s1.first_epoch = s2.first_epoch ∧ s1.last_epoch = s2.last_epoch ∧
  lockAgree s1.lock_status s2.lock_status ∧
  s1.observed_signals = s2.observed_signals ∧
  tableAgree s1.rinex_data s2.rinex_data

inductive optionAgree {γ : Type} (R : γ → γ → Prop) : Option γ → Option γ → Prop
  | none : optionAgree R none none
  | some (a b : γ) : R a b → optionAgree R (some a) (some b)

theorem sigMapAgree_insertKV {m1 m2 : SignalMap} (h : sigMapAgree m1 m2)
    (k : Observable) (v1 v2 : ObservationData)
    (hobs : v1.obs = v2.obs) (hsnr : v1.snr = v2.snr)
    (hlli : k.isPhase = false → v1.lli = v2.lli) :
    sigMapAgree (insertKV m1 k v1) (insertKV m2 k v2) := by
  induction h with
  | nil => exact sigMapAgree.cons k v1 v2 [] [] hobs hsnr hlli sigMapAgree.nil
  | cons k' v1' v2' r1 r2 ho hs hl hr ih =>
    unfold insertKV
    by_cases hk : k' = k
    · rw [if_pos hk, if_pos hk]
      exact sigMapAgree.cons k v1 v2 r1 r2 hobs hsnr hlli hr
    · rw [if_neg hk, if_neg hk]
      exact sigMapAgree.cons k' v1' v2' _ _ ho hs hl ih

theorem svMapAgree_insertKV {m1 m2 : SvMap} (h : svMapAgree m1 m2)
    (k : SV) (v1 v2 : SignalMap) (hv : sigMapAgree v1 v2) :
    svMapAgree (insertKV m1 k v1) (insertKV m2 k v2) := by
  induction h with
  | nil => exact svMapAgree.cons k v1 v2 [] [] hv svMapAgree.nil
  | cons k' v1' v2' r1 r2 hs hr ih =>
    unfold insertKV
    by_cases hk : k' = k
    · rw [if_pos hk, if_pos hk]
      exact svMapAgree.cons k v1 v2 r1 r2 hv hr
    · rw [if_neg hk, if_neg hk]
      exact svMapAgree.cons k' v1' v2' _ _ hs ih

theorem tableAgree_insertKV {t1 t2 : ObsTable} (h : tableAgree t1 t2)
    (k : EpochKey) (g1 g2 : EpochGroup) (hc : g1.1 = g2.1) (hv : svMapAgree g1.2 g2.2) :
    tableAgree (insertKV t1 k g1) (insertKV t2 k g2) := by
  induction h with
  | nil => exact tableAgree.cons k g1 g2 [] [] hc hv tableAgree.nil
  | cons k' g1' g2' r1 r2 hc' hv' hr ih =>
    unfold insertKV
    by_cases hk : k' = k
    · rw [if_pos hk, if_pos hk]
      exact tableAgree.cons k g1 g2 r1 r2 hc hv hr
    · rw [if_neg hk, if_neg hk]
      exact tableAgree.cons k' g1' g2' _ _ hc' hv' ih

theorem svMapAgree_lookupKV {m1 m2 : SvMap} (h : svMapAgree m1 m2) (k : SV) :
    optionAgree sigMapAgree (lookupKV m1 k) (lookupKV m2 k) := by
  induction h with
  | nil => exact optionAgree.none
  | cons k' v1 v2 r1 r2 hs hr ih =>
    unfold lookupKV
    by_cases hk : k' = k
    · rw [if_pos hk, if_pos hk]
      exact optionAgree.some v1 v2 hs
    · rw [if_neg hk, if_neg hk]
      exact ih

theorem tableAgree_lookupKV {t1 t2 : ObsTable} (h : tableAgree t1 t2) (k : EpochKey) :
    optionAgree (fun g1 g2 => g1.1 = g2.1 ∧ svMapAgree g1.2 g2.2)
      (lookupKV t1 k) (lookupKV t2 k) := by
  induction h with
  | nil => exact optionAgree.none
  | cons k' g1 g2 r1 r2 hc hv hr ih =>
    unfold lookupKV
    by_cases hk : k' = k
    · rw [if_pos hk, if_pos hk]
      exact optionAgree.some g1 g2 ⟨hc, hv⟩
    · rw [if_neg hk, if_neg hk]
      exact ih

theorem svMapAgree_appendKV {old1 old2 new1 new2 : SvMap}
    (hold : svMapAgree old1 old2) (hnew : svMapAgree new1 new2) :
    svMapAgree (appendKV old1 new1) (appendKV old2 new2) := by
  induction hnew generalizing old1 old2 with
  | nil => exact hold
  | cons k v1 v2 r1 r2 hv hr ih =>
    exact ih (svMapAgree_insertKV hold k v1 v2 hv)

theorem lockAgree_update (l1 l2 : LockStatus) (h : lockAgree l1 l2) (sv : SV) (code : String)
    (current_epoch : ℚ) (current_lli : Nat) (half_cycle_ambiguity : Nat) :
    lockAgree (l1.update_lock_status sv code current_epoch current_lli half_cycle_ambiguity).2
      (l2.update_lock_status sv code current_epoch current_lli half_cycle_ambiguity).2 := by
  obtain ⟨h1, h2⟩ := h
  constructor
  · show insertKV l1.previous_lli (sv, code) current_lli =
      insertKV l2.previous_lli (sv, code) current_lli
    rw [h1]
  · show insertKV l1.previous_epoch (sv, code) current_epoch =
      insertKV l2.previous_epoch (sv, code) current_epoch
    rw [h2]

theorem sigMapAgree_getD {a b : Option SignalMap} (h : optionAgree sigMapAgree a b) :
    sigMapAgree (a.getD []) (b.getD []) := by
  cases h with
  | none => exact sigMapAgree.nil
  | some x y hxy => exact hxy

theorem msmRows_cons_none {σ τ : Type} (satMap : List (Nat × σ)) (sigId : τ → Nat)
    (build : τ → σ → MsmData) (current_epoch : ℚ) (sig : τ) (rest : List τ)
    (observations : SvMap) (lock_status : LockStatus)
    (h : lookupKV satMap (sigId sig) = none) :
    msmRows satMap sigId build current_epoch (sig :: rest) observations lock_status = none := by
  simp only [msmRows]
  rw [h]

theorem msmRows_cons_some {σ τ : Type} (satMap : List (Nat × σ)) (sigId : τ → Nat)
    (build : τ → σ → MsmData) (current_epoch : ℚ) (sig : τ) (rest : List τ)
    (observations : SvMap) (lock_status : LockStatus) (sat : σ)
    (h : lookupKV satMap (sigId sig) = some sat) :
    msmRows satMap sigId build current_epoch (sig :: rest) observations lock_status =
      match process_signals observations (build sig sat) lock_status current_epoch with
      | none => none
      | some (observations', lock_status') =>
          msmRows satMap sigId build current_epoch rest observations' lock_status' := by
  simp only [msmRows]
  rw [h]

theorem process_signals_agree (obs1 obs2 : SvMap) (signal : MsmData)
    (l1 l2 : LockStatus) (current_epoch : ℚ)
    (hobs : svMapAgree obs1 obs2) (hl : lockAgree l1 l2) :
    optionAgree (fun r1 r2 => svMapAgree r1.1 r2.1 ∧ lockAgree r1.2 r2.2)
      (process_signals obs1 signal l1 current_epoch)
      (process_signals obs2 signal l2 current_epoch) := by
  unfold process_signals
  cases hf : get_frequency signal.constellation signal.band with
  | none => exact optionAgree.none
  | some f =>
    refine optionAgree.some _ _ ⟨?_, ?_⟩
    · have h0 : sigMapAgree
          ((lookupKV obs1 ⟨signal.constellation, signal.satellite_id⟩).getD [])
          ((lookupKV obs2 ⟨signal.constellation, signal.satellite_id⟩).getD []) :=
        sigMapAgree_getD
          (svMapAgree_lookupKV hobs ⟨signal.constellation, signal.satellite_id⟩)
      apply svMapAgree_insertKV hobs
      rcases signal.rough_range with _ | rr <;>
        rcases signal.fine_pseudo_range with _ | fp <;>
        rcases signal.fine_phase_range with _ | fc <;>
        rcases signal.rough_phase_range_rate with _ | dr <;>
        rcases signal.fine_phase_range_rate with _ | df <;>
        rcases signal.cnr with _ | cn <;>
        repeat
          first
            | exact h0
            | refine sigMapAgree_insertKV ?_ _ _ _ rfl rfl
                (by intro hph
                    first
                      | rfl
                      | simp [Observable.isPhase] at hph)
    · exact lockAgree_update l1 l2 hl ⟨signal.constellation, signal.satellite_id⟩
        (codeStr signal.band signal.attr) current_epoch signal.loss_of_lock_indicator
        signal.half_cycle_ambiguity

theorem msmRows_agree {σ τ : Type} (satMap : List (Nat × σ)) (sigId : τ → Nat)
    (build : τ → σ → MsmData) (current_epoch : ℚ) (sigs : List τ)
    (obs1 obs2 : SvMap) (l1 l2 : LockStatus)
    (hobs : svMapAgree obs1 obs2) (hl : lockAgree l1 l2) :
    optionAgree (fun r1 r2 => svMapAgree r1.1 r2.1 ∧ lockAgree r1.2 r2.2)
      (msmRows satMap sigId build current_epoch sigs obs1 l1)
      (msmRows satMap sigId build current_epoch sigs obs2 l2) := by
  induction sigs generalizing obs1 obs2 l1 l2 with
  | nil => exact optionAgree.some _ _ ⟨hobs, hl⟩
  | cons sig rest ih =>
    cases hsat : lookupKV satMap (sigId sig) with
    | none =>
      rw [msmRows_cons_none satMap sigId build current_epoch sig rest obs1 l1 hsat,
        msmRows_cons_none satMap sigId build current_epoch sig rest obs2 l2 hsat]
      exact optionAgree.none
    | some sat =>
      rw [msmRows_cons_some satMap sigId build current_epoch sig rest obs1 l1 sat hsat,
        msmRows_cons_some satMap sigId build current_epoch sig rest obs2 l2 sat hsat]
      have hps := process_signals_agree obs1 obs2 (build sig sat) l1 l2 current_epoch hobs hl
      cases hp1 : process_signals obs1 (build sig sat) l1 current_epoch with
      | none =>
        cases hp2 : process_signals obs2 (build sig sat) l2 current_epoch with
        | none => exact optionAgree.none
        | some r2 =>
          rw [hp1, hp2] at hps
          cases hps
      | some r1 =>
        cases hp2 : process_signals obs2 (build sig sat) l2 current_epoch with
        | none =>
          rw [hp1, hp2] at hps
          cases hps
        | some r2 =>
          rw [hp1, hp2] at hps
          obtain ⟨o1, s1⟩ := r1
          obtain ⟨o2, s2⟩ := r2
          have hab : svMapAgree o1 o2 ∧ lockAgree s1 s2 := by
            cases hps with
            | some a b hab => exact hab
          exact ih o1 o2 s1 s2 hab.1 hab.2

theorem extract_inner_eq (c : Constellation) {v1 v2 : SignalMap} (h : sigMapAgree v1 v2) :
    ∀ acc : List (Constellation × String),
      v1.foldl (fun acc2 obEntry => setInsert acc2 (c, obEntry.1.code)) acc =
      v2.foldl (fun acc2 obEntry => setInsert acc2 (c, obEntry.1.code)) acc := by
  induction h with
  | nil => intro acc; rfl
  | cons k x1 x2 r1 r2 ho hs hli hr ih =>
    intro acc
    simp only [List.foldl_cons]
    exact ih _

theorem extract_observed_eq {m1 m2 : SvMap} (h : svMapAgree m1 m2) :
    ∀ s, extract_observed_signals m1 s = extract_observed_signals m2 s := by
  induction h with
  | nil => intro s; rfl
  | cons k v1 v2 r1 r2 hv hr ih =>
    intro s
    unfold extract_observed_signals
    simp only [List.foldl_cons]
    rw [extract_inner_eq k.constellation hv s]
    exact ih _

theorem mergeEpoch_agree {t1 t2 : ObsTable} (h : tableAgree t1 t2) (key : EpochKey)
    {o1 o2 : SvMap} (ho : svMapAgree o1 o2) :
    tableAgree (mergeEpoch t1 key o1) (mergeEpoch t2 key o2) := by
  unfold mergeEpoch
  have hlk := tableAgree_lookupKV h key
  cases hl1 : lookupKV t1 key with
  | none =>
    cases hl2 : lookupKV t2 key with
    | none => exact tableAgree_insertKV h key _ _ rfl ho
    | some g2 =>
      rw [hl1, hl2] at hlk
      cases hlk
  | some g1 =>
    cases hl2 : lookupKV t2 key with
    | none =>
      rw [hl1, hl2] at hlk
      cases hlk
    | some g2 =>
      rw [hl1, hl2] at hlk
      have hg : g1.1 = g2.1 ∧ svMapAgree g1.2 g2.2 := by
        cases hlk with
        | some a b hab => exact hab
      exact tableAgree_insertKV h key _ _ hg.1 (svMapAgree_appendKV hg.2 ho)

theorem step_agree (s1 s2 : ConvertState) (m : Message) (h : stateAgree s1 s2) :
    optionAgree stateAgree (step s1 m) (step s2 m) := by
  obtain ⟨hg, hgal, hfe, hle, hlock, hobsig, htab⟩ := h
  have hmsm : ∀ (e : ℚ) (r1 r2 : Option (SvMap × LockStatus)),
      optionAgree (fun a b => svMapAgree a.1 b.1 ∧ lockAgree a.2 b.2) r1 r2 →
      optionAgree stateAgree (stepMsm s1 e r1) (stepMsm s2 e r2) := by
    intro e r1 r2 hr
    cases hr with
    | none => exact optionAgree.none
    | some a b hab =>
      obtain ⟨o1, ls1⟩ := a
      obtain ⟨o2, ls2⟩ := b
      refine optionAgree.some _ _ ⟨hg, hgal, ?_, ?_, hab.2, ?_, ?_⟩
      · show (some (match s1.first_epoch with
          | none => e
          | some f => if f > e then e else f)) = some (match s2.first_epoch with
          | none => e
          | some f => if f > e then e else f)
        rw [hfe]
      · show (some (match s1.last_epoch with
          | none => e
          | some l => if l < e then e else l)) = some (match s2.last_epoch with
          | none => e
          | some l => if l < e then e else l)
        rw [hle]
      · show extract_observed_signals o1 s1.observed_signals =
          extract_observed_signals o2 s2.observed_signals
        rw [hobsig]
        exact extract_observed_eq hab.1 _
      · exact mergeEpoch_agree htab _ hab.1
  cases m with
  | msg1019 w =>
    exact optionAgree.some _ _ ⟨rfl, hgal, hfe, hle, hlock, hobsig, htab⟩
  | msg1046 w =>
    exact optionAgree.some _ _ ⟨hg, rfl, hfe, hle, hlock, hobsig, htab⟩
  | msg1074 t sats sigs =>
    unfold step
    rw [hg]
    cases hw : s2.gps_week with
    | none => exact optionAgree.some _ _ ⟨hg, hgal, hfe, hle, hlock, hobsig, htab⟩
    | some week =>
      exact hmsm _ _ _ (msmRows_agree _ _ _ _ _ _ _ _ _ svMapAgree.nil hlock)
  | msg1077 t sats sigs =>
    unfold step
    rw [hg]
    cases hw : s2.gps_week with
    | none => exact optionAgree.some _ _ ⟨hg, hgal, hfe, hle, hlock, hobsig, htab⟩
    | some week =>
      exact hmsm _ _ _ (msmRows_agree _ _ _ _ _ _ _ _ _ svMapAgree.nil hlock)
  | msg1094 t sats sigs =>
    unfold step
    rw [hgal]
    cases hw : s2.galileo_week with
    | none => exact optionAgree.some _ _ ⟨hg, hgal, hfe, hle, hlock, hobsig, htab⟩
    | some week =>
      exact hmsm _ _ _ (msmRows_agree _ _ _ _ _ _ _ _ _ svMapAgree.nil hlock)
  | msg1097 t sats sigs =>
    unfold step
    rw [hgal]
    cases hw : s2.galileo_week with
    | none => exact optionAgree.some _ _ ⟨hg, hgal, hfe, hle, hlock, hobsig, htab⟩
    | some week =>
      exact hmsm _ _ _ (msmRows_agree _ _ _ _ _ _ _ _ _ svMapAgree.nil hlock)
  | otherMessage =>
    exact optionAgree.some _ _ ⟨hg, hgal, hfe, hle, hlock, hobsig, htab⟩

theorem runMessages_agree (msgs : List Message) (s1 s2 : ConvertState) (h : stateAgree s1 s2) :
    optionAgree stateAgree (runMessages s1 msgs) (runMessages s2 msgs) := by
  induction msgs generalizing s1 s2 with
  | nil => exact optionAgree.some _ _ h
  | cons m rest ih =>
    unfold runMessages
    have hs := step_agree s1 s2 m h
    cases h1 : step s1 m with
    | none =>
      cases h2 : step s2 m with
      | none => exact optionAgree.none
      | some t2 =>
        rw [h1, h2] at hs
        cases hs
    | some t1 =>
      cases h2 : step s2 m with
      | none =>
        rw [h1, h2] at hs
        cases hs
      | some t2 =>
        rw [h1, h2] at hs
        have ht : stateAgree t1 t2 := by
          cases hs with
          | some a b hab => exact hab
        exact ih t1 t2 ht

/-- Claim C10: two runs of the decoder over the same message sequence that
differ only in the lock mode either both panic or both produce final states
that agree componentwise: identical week state, epoch summary, observed
signal set, lock histories, and tables with identical epoch keys, clock
offsets, SVs, observable keys, `obs` and `snr` values — only the `lli` of
Phase observations is unconstrained between the two runs. -/
theorem c10_lock_mode_agreement (msgs : List Message) :
    optionAgree stateAgree (convert_core false msgs) (convert_core true msgs) :=
  runMessages_agree msgs (initState false) (initState true)
    ⟨rfl, rfl, rfl, rfl, ⟨rfl, rfl⟩, rfl, tableAgree.nil⟩

end Rtcm2Rnx
